import Mathlib

/-!
Verification development for a small delivery-logistics backend
(orders, courier assignments, delivery events).

Shallow embedding conventions:
* TypeScript classes become Lean structures; the `private` mutable fields
  become structure fields and the mutating entity methods become functions
  returning an updated copy.
* Methods that `throw` are modelled as `Except String α`, carrying the
  exact error message thrown by the source.
* JS `Date` values are modelled as `Int` epoch timestamps; `new Date()`
  (the current time) is passed in as an explicit `now` parameter.
* JS numbers appearing in the domain (weights) are only ever compared and
  stored, never arithmetically combined, so they are modelled as `Int`.
* `JSON.stringify` of a flat string-valued object literal is modelled as
  the association list of its key/value pairs.
* The identifier wrapper classes (`OrderId`, `AccountId`, ...) only check
  non-emptiness at construction and then expose the raw string, so
  entities store plain `String` ids and each wrapper constructor is a
  `create` function returning `Except String String`.
* `uuidv4()` (fresh identifier generation) is passed in as an explicit
  parameter.
* The TypeORM-backed repositories are modelled as association-list tables
  in a `RepoState`; `findOne { where ... }` is `List.find?` over the
  table, `save` appends, and `update`/upsert-by-primary-key replaces the
  row with the matching id.
-/

/-- Model of JavaScript `String.prototype.trim`: remove whitespace from
both ends of the string. -/
def jsTrim (s : String) : String :=
  String.mk (((s.data.dropWhile Char.isWhitespace).reverse.dropWhile Char.isWhitespace).reverse)

/-- True when an `Except` computation succeeded (the method did not throw). -/
def isOk {ε α : Type} : Except ε α → Bool
  | Except.ok _ => true
  | Except.error _ => false

/-- True when an `Except` computation threw. -/
def isErr {ε α : Type} (e : Except ε α) : Bool :=
  ! isOk e

/-! ## Value objects -/

/-- The `OrderStatusType` enum from `domain/order/vo/order-status.ts`. -/
inductive OrderStatusType : Type
  | PLACED
  | READY_TO_SHIP
  | ASSIGNED
  | DELIVERED
  | CANCELLED
deriving DecidableEq

/-- The `OrderStatus` constructor: accepts exactly the five enum codes,
otherwise throws. -/
def OrderStatus.create (value : String) : Except String OrderStatusType :=
  if value = "PLACED" then Except.ok OrderStatusType.PLACED
  else if value = "READY_TO_SHIP" then Except.ok OrderStatusType.READY_TO_SHIP
  else if value = "ASSIGNED" then Except.ok OrderStatusType.ASSIGNED
  else if value = "DELIVERED" then Except.ok OrderStatusType.DELIVERED
  else if value = "CANCELLED" then Except.ok OrderStatusType.CANCELLED
  else Except.error ("無効な注文ステータスです: " ++ value)

/-- Source `OrderStatus.canBeAssigned`: true iff the status is READY_TO_SHIP. -/
def OrderStatusType.canBeAssigned : OrderStatusType → Bool
  | OrderStatusType.READY_TO_SHIP => true
  | _ => false

/-- Source `OrderStatus.isDelivered`. -/
def OrderStatusType.isDelivered : OrderStatusType → Bool
  | OrderStatusType.DELIVERED => true
  | _ => false

/-- Source `OrderStatus.isCancelled`. -/
def OrderStatusType.isCancelled : OrderStatusType → Bool
  | OrderStatusType.CANCELLED => true
  | _ => false

/-- The `AssignmentStatusType` enum from `domain/assignment/vo/assignment-status.ts`. -/
inductive AssignmentStatusType : Type
  | PENDING
  | ACCEPTED
  | REJECTED
  | COMPLETED
  | CANCELLED
deriving DecidableEq

/-- The `AssignmentStatus` constructor: accepts exactly the five enum
codes, otherwise throws. -/
def AssignmentStatus.create (value : String) : Except String AssignmentStatusType :=
  if value = "PENDING" then Except.ok AssignmentStatusType.PENDING
  else if value = "ACCEPTED" then Except.ok AssignmentStatusType.ACCEPTED
  else if value = "REJECTED" then Except.ok AssignmentStatusType.REJECTED
  else if value = "COMPLETED" then Except.ok AssignmentStatusType.COMPLETED
  else if value = "CANCELLED" then Except.ok AssignmentStatusType.CANCELLED
  else Except.error ("無効な割り当てステータスです: " ++ value)

/-- Source `AssignmentStatus.isActive`: status is PENDING or ACCEPTED. -/
def AssignmentStatusType.isActive : AssignmentStatusType → Bool
  | AssignmentStatusType.PENDING => true
  | AssignmentStatusType.ACCEPTED => true
  | _ => false

/-- Source `AssignmentStatus.isPending`. -/
def AssignmentStatusType.isPending : AssignmentStatusType → Bool
  | AssignmentStatusType.PENDING => true
  | _ => false

/-- Source `AssignmentStatus.isAccepted`. -/
def AssignmentStatusType.isAccepted : AssignmentStatusType → Bool
  | AssignmentStatusType.ACCEPTED => true
  | _ => false

/-- Source `AssignmentStatus.isCompleted`. -/
def AssignmentStatusType.isCompleted : AssignmentStatusType → Bool
  | AssignmentStatusType.COMPLETED => true
  | _ => false

/-- The `EventTypeValue` enum from `domain/delivery-event/vo/event-type.ts`. -/
inductive EventTypeValue : Type
  | ORDER_PLACED
  | READY_TO_SHIP
  | ASSIGNED
  | PICKED_UP
  | DELIVERED
  | CANCELLED
deriving DecidableEq

/-- The `Address` value object: a trimmed, non-blank string. -/
structure Address : Type where
  value : String
deriving DecidableEq

/-- The `Address` constructor: throws on an empty or whitespace-only
string, otherwise stores the trimmed value. -/
def Address.create (value : String) : Except String Address :=
  if value = "" ∨ jsTrim value = "" then Except.error ("住所は必須です")
  else Except.ok { value := jsTrim value }

/-- The `Weight` value object (kilograms). -/
structure Weight : Type where
  valueInKg : Int
deriving DecidableEq

/-- The `Weight` constructor: throws on a negative value. -/
def Weight.create (valueInKg : Int) : Except String Weight :=
  if valueInKg < 0 then Except.error ("重量は0以上である必要があります")
  else Except.ok { valueInKg := valueInKg }

/-- The `TimeWindow` value object: an optional start/end pair. -/
structure TimeWindow : Type where
  startAt : Option Int
  endAt : Option Int
deriving DecidableEq

/-- The `TimeWindow` constructor: throws when both bounds are present and
the start is after the end. -/
def TimeWindow.create (startAt endAt : Option Int) : Except String TimeWindow :=
  match startAt, endAt with
  | some s, some e =>
      if e < s then Except.error ("開始時間は終了時間より前である必要があります")
      else Except.ok { startAt := startAt, endAt := endAt }
  | _, _ => Except.ok { startAt := startAt, endAt := endAt }

/-- The `OrderId` constructor: throws on the empty string. -/
def OrderId.create (value : String) : Except String String :=
  if value = "" then Except.error ("OrderIdは必須です") else Except.ok value

/-- The `AccountId` constructor: throws on the empty string. -/
def AccountId.create (value : String) : Except String String :=
  if value = "" then Except.error ("AccountIdは必須です") else Except.ok value

/-- The `AssignmentId` constructor: throws on the empty string. -/
def AssignmentId.create (value : String) : Except String String :=
  if value = "" then Except.error ("AssignmentIdは必須です") else Except.ok value

/-- The `DeliveryEventId` constructor: throws on the empty string. -/
def DeliveryEventId.create (value : String) : Except String String :=
  if value = "" then Except.error ("DeliveryEventIdは必須です") else Except.ok value

/-! ## Entities -/

/-- The `Order` entity from `domain/order/entity/order.ts`. -/
structure Order : Type where
  id : String
  shipperId : String
  status : OrderStatusType
  pickupAddress : Address
  dropoffAddress : Address
  pickupTimeWindow : TimeWindow
  dropoffTimeWindow : TimeWindow
  totalWeight : Weight
  notes : Option String
  createdAt : Int
deriving DecidableEq

/-- Source `Order.markReadyToShip`: only a PLACED order may be marked ready to
ship; on success the status becomes READY_TO_SHIP. -/
def Order.markReadyToShip (o : Order) : Except String Order :=
  if o.status ≠ OrderStatusType.PLACED then
    Except.error ("PLACED状態の注文のみ出荷準備完了にできます")
  else Except.ok { o with status := OrderStatusType.READY_TO_SHIP }

/-- Source `Order.canBeAssigned` delegates to the status predicate. -/
def Order.canBeAssigned (o : Order) : Bool :=
  o.status.canBeAssigned

/-- Source `Order.assign`: guarded by `canBeAssigned`; on success the status
becomes ASSIGNED. -/
def Order.assign (o : Order) : Except String Order :=
  if ! o.status.canBeAssigned then
    Except.error ("READY_TO_SHIP状態の注文のみ割り当て可能です")
  else Except.ok { o with status := OrderStatusType.ASSIGNED }

/-- Source `Order.deliver`: only an ASSIGNED order may be delivered. -/
def Order.deliver (o : Order) : Except String Order :=
  if o.status ≠ OrderStatusType.ASSIGNED then
    Except.error ("ASSIGNED状態の注文のみ配達完了にできます")
  else Except.ok { o with status := OrderStatusType.DELIVERED }

/-- Source `Order.cancel`: a delivered order cannot be cancelled; any other
order (including an already cancelled one) becomes CANCELLED. -/
def Order.cancel (o : Order) : Except String Order :=
  if o.status.isDelivered then
    Except.error ("配達済みの注文はキャンセルできません")
  else Except.ok { o with status := OrderStatusType.CANCELLED }

/-- The `Assignment` entity from `domain/assignment/entity/assignment.ts`. -/
structure Assignment : Type where
  id : String
  orderId : String
  courierId : String
  status : AssignmentStatusType
  offeredAt : Int
  respondedAt : Option Int
deriving DecidableEq

/-- Source `Assignment.accept` (at time `now`): only a PENDING assignment may
be accepted; on success the status becomes ACCEPTED and `respondedAt`
is set to `now`. -/
def Assignment.accept (a : Assignment) (now : Int) : Except String Assignment :=
  if ! a.status.isPending then
    Except.error ("PENDING状態の割り当てのみ受諾可能です")
  else Except.ok { a with status := AssignmentStatusType.ACCEPTED, respondedAt := some now }

/-- Source `Assignment.reject` (at time `now`): only a PENDING assignment may
be rejected; on success the status becomes REJECTED and `respondedAt`
is set to `now`. -/
def Assignment.reject (a : Assignment) (now : Int) : Except String Assignment :=
  if ! a.status.isPending then
    Except.error ("PENDING状態の割り当てのみ拒否可能です")
  else Except.ok { a with status := AssignmentStatusType.REJECTED, respondedAt := some now }

/-- Source `Assignment.complete`: only an ACCEPTED assignment may be completed. -/
def Assignment.complete (a : Assignment) : Except String Assignment :=
  if ! a.status.isAccepted then
    Except.error ("ACCEPTED状態の割り当てのみ完了可能です")
  else Except.ok { a with status := AssignmentStatusType.COMPLETED }

/-- Source `Assignment.cancel`: a completed assignment cannot be cancelled; any
other assignment becomes CANCELLED. -/
def Assignment.cancel (a : Assignment) : Except String Assignment :=
  if a.status.isCompleted then
    Except.error ("完了した割り当てはキャンセルできません")
  else Except.ok { a with status := AssignmentStatusType.CANCELLED }

/-- Source `Assignment.isActive` delegates to the status predicate. -/
def Assignment.isActive (a : Assignment) : Bool :=
  a.status.isActive

/-- The `DeliveryEvent` entity from
`domain/delivery-event/entity/delivery-event.ts`.  The JSON payload is
modelled as the association list of the stringified object. -/
structure DeliveryEvent : Type where
  id : String
  orderId : String
  courierId : Option String
  type : EventTypeValue
  payload : Option (List (String × String))
  occurredAt : Int
deriving DecidableEq

/-! ## Repository state

The TypeORM repositories are modelled as tables in a single `RepoState`.
`findOne { where ... }` is `List.find?`, `save` appends a row, and
`update` (TypeORM upsert-by-primary-key on an existing row) replaces the
row whose id matches. -/

/-- The persistent state seen by the use cases: one table per entity. -/
structure RepoState : Type where
  orders : List Order
  assignments : List Assignment
  events : List DeliveryEvent
deriving DecidableEq

/-- Source `OrderRepository.findById`. -/
def RepoState.findOrderById (st : RepoState) (id : String) : Option Order :=
  st.orders.find? (fun o => o.id == id)

/-- Source `OrderRepository.save`. -/
def RepoState.saveOrder (st : RepoState) (o : Order) : RepoState :=
  { st with orders := st.orders ++ [o] }

/-- Source `OrderRepository.update`: replace the row with the matching primary
key. -/
def RepoState.updateOrder (st : RepoState) (o : Order) : RepoState :=
  { st with orders := st.orders.map (fun x => if x.id == o.id then o else x) }

/-- Source `AssignmentRepository.findById`. -/
def RepoState.findAssignmentById (st : RepoState) (id : String) : Option Assignment :=
  st.assignments.find? (fun a => a.id == id)

/-- Source `AssignmentRepository.findByOrderId`: first assignment for the order,
regardless of status. -/
def RepoState.findAssignmentByOrderId (st : RepoState) (orderId : String) : Option Assignment :=
  st.assignments.find? (fun a => a.orderId == orderId)

/-- Source `AssignmentRepository.findActiveByOrderId`.  The source builds the
where clause as `{ orderId: orderId.value, status: "PENDING" || "ACCEPTED" }`;
the JavaScript expression `"PENDING" || "ACCEPTED"` evaluates to its
first operand `"PENDING"`, so the query is
`orderId = ? AND status = "PENDING"`. -/
def RepoState.findActiveByOrderId (st : RepoState) (orderId : String) : Option Assignment :=
  st.assignments.find? (fun a => a.orderId == orderId && a.status == AssignmentStatusType.PENDING)

/-- Source `AssignmentRepository.save`. -/
def RepoState.saveAssignment (st : RepoState) (a : Assignment) : RepoState :=
  { st with assignments := st.assignments ++ [a] }

/-- Source `AssignmentRepository.update`: replace the row with the matching
primary key. -/
def RepoState.updateAssignment (st : RepoState) (a : Assignment) : RepoState :=
  { st with assignments := st.assignments.map (fun x => if x.id == a.id then a else x) }

/-- Source `DeliveryEventRepository.save`. -/
def RepoState.saveEvent (st : RepoState) (e : DeliveryEvent) : RepoState :=
  { st with events := st.events ++ [e] }

/-! ## Use cases

Each use case is a function from the repository state and its parameters
to `Except` of the new state and the returned entity.  An `Except.error`
result corresponds to a rejected promise; since the source performs its
repository writes sequentially and the model threads the state through
the same sequence, an error result means no write was performed after
the point of failure (and the original `RepoState` is unchanged). -/

/-- Source `PlaceOrderUseCase.execute` from `app/order/place-order.usecase.ts`.
`freshOrderId` and `freshEventId` stand for the two `uuidv4()` calls and
`now` for the construction-time `new Date()` timestamps. -/
def PlaceOrderUseCase.execute (st : RepoState)
    (shipperId pickupAddress dropoffAddress : String)
    (pickupStartAt pickupEndAt dropStartAt dropEndAt : Option Int)
    (totalWeightKg : Option Int) (notes : Option String)
    (freshOrderId freshEventId : String) (now : Int) :
    Except String (RepoState × Order) :=
  match OrderId.create freshOrderId with
  | Except.error e => Except.error e
  | Except.ok orderId =>
    match AccountId.create shipperId with
    | Except.error e => Except.error e
    | Except.ok shipper =>
      match OrderStatus.create ("PLACED") with
      | Except.error e => Except.error e
      | Except.ok status =>
        match Address.create pickupAddress with
        | Except.error e => Except.error e
        | Except.ok pickup =>
          match Address.create dropoffAddress with
          | Except.error e => Except.error e
          | Except.ok dropoff =>
            match TimeWindow.create pickupStartAt pickupEndAt with
            | Except.error e => Except.error e
            | Except.ok ptw =>
              match TimeWindow.create dropStartAt dropEndAt with
              | Except.error e => Except.error e
              | Except.ok dtw =>
                match Weight.create (totalWeightKg.getD 0) with
                | Except.error e => Except.error e
                | Except.ok w =>
                  let order : Order :=
                    { id := orderId, shipperId := shipper, status := status,
                      pickupAddress := pickup, dropoffAddress := dropoff,
                      pickupTimeWindow := ptw, dropoffTimeWindow := dtw,
                      totalWeight := w, notes := notes, createdAt := now }
                  let st1 := st.saveOrder order
                  match DeliveryEventId.create freshEventId with
                  | Except.error e => Except.error e
                  | Except.ok evId =>
                    let event : DeliveryEvent :=
                      { id := evId, orderId := orderId, courierId := none,
                        type := EventTypeValue.ORDER_PLACED,
                        payload := some [("shipperId", shipperId),
                                         ("pickupAddress", pickupAddress),
                                         ("dropoffAddress", dropoffAddress)],
                        occurredAt := now }
                    Except.ok (st1.saveEvent event, order)

/-- Source `OfferAssignmentUseCase.execute` from
`app/assignment/offer-assignment.usecase.ts`.  `freshAssignmentId`
stands for the `uuidv4()` call and `now` for the `offeredAt`
construction timestamp. -/
def OfferAssignmentUseCase.execute (st : RepoState)
    (orderId courierId : String) (freshAssignmentId : String) (now : Int) :
    Except String (RepoState × Assignment) :=
  match OrderId.create orderId with
  | Except.error e => Except.error e
  | Except.ok oid =>
    match st.findOrderById oid with
    | none => Except.error ("注文が見つかりません")
    | some order =>
      if ! order.canBeAssigned then
        Except.error ("この注文は割当できません。状態がREADY_TO_SHIPである必要があります")
      else
        match st.findActiveByOrderId order.id with
        | some _ => Except.error ("この注文には既にアクティブな割当があります")
        | none =>
          match AssignmentId.create freshAssignmentId with
          | Except.error e => Except.error e
          | Except.ok aId =>
            match AccountId.create courierId with
            | Except.error e => Except.error e
            | Except.ok cId =>
              match AssignmentStatus.create ("PENDING") with
              | Except.error e => Except.error e
              | Except.ok pst =>
                let assignment : Assignment :=
                  { id := aId, orderId := order.id, courierId := cId,
                    status := pst, offeredAt := now, respondedAt := none }
                Except.ok (st.saveAssignment assignment, assignment)

/-- Source `AcceptAssignmentUseCase.execute` from
`app/assignment/accept-assignment.usecase.ts`.  `freshEventId` stands
for the `uuidv4()` of the ASSIGNED event and `now` for the response
timestamp. -/
def AcceptAssignmentUseCase.execute (st : RepoState)
    (assignmentId : String) (now : Int) (freshEventId : String) :
    Except String (RepoState × Assignment) :=
  match AssignmentId.create assignmentId with
  | Except.error e => Except.error e
  | Except.ok aid =>
    match st.findAssignmentById aid with
    | none => Except.error ("割当が見つかりません")
    | some assignment =>
      match assignment.accept now with
      | Except.error e => Except.error e
      | Except.ok assignment2 =>
        let st1 := st.updateAssignment assignment2
        match st1.findOrderById assignment2.orderId with
        | none => Except.error ("注文が見つかりません")
        | some order =>
          match order.assign with
          | Except.error e => Except.error e
          | Except.ok order2 =>
            let st2 := st1.updateOrder order2
            match DeliveryEventId.create freshEventId with
            | Except.error e => Except.error e
            | Except.ok evId =>
              let event : DeliveryEvent :=
                { id := evId, orderId := assignment2.orderId,
                  courierId := some assignment2.courierId,
                  type := EventTypeValue.ASSIGNED,
                  payload := some [("assignmentId", assignmentId),
                                   ("courierId", assignment2.courierId)],
                  occurredAt := now }
              Except.ok (st2.saveEvent event, assignment2)

/-! ## Example entities used by witnesses -/

/-- A concrete PLACED order. -/
def exOrder : Order :=
  { id := "o1", shipperId := "s1", status := OrderStatusType.PLACED,
    pickupAddress := { value := "A" }, dropoffAddress := { value := "B" },
    pickupTimeWindow := { startAt := none, endAt := none },
    dropoffTimeWindow := { startAt := none, endAt := none },
    totalWeight := { valueInKg := 5 }, notes := none, createdAt := 0 }

/-- A concrete PENDING assignment for `exOrder`. -/
def exAssignment : Assignment :=
  { id := "a1", orderId := "o1", courierId := "c1",
    status := AssignmentStatusType.PENDING, offeredAt := 0, respondedAt := none }

/-- A concrete ACCEPTED assignment. -/
def exAcceptedAssignment : Assignment :=
  { id := "a2", orderId := "o1", courierId := "c1",
    status := AssignmentStatusType.ACCEPTED, offeredAt := 0, respondedAt := some 50 }

/-! ## C1, C2, C10: entity state machines -/

/-- C1: for every Order, `markReadyToShip` succeeds (setting the status
to READY_TO_SHIP) iff the current status is PLACED; `assign` succeeds
(setting ASSIGNED) iff the status is READY_TO_SHIP; `deliver` succeeds
(setting DELIVERED) iff the status is ASSIGNED; `cancel` fails iff the
status is DELIVERED and otherwise sets CANCELLED, including the
idempotent re-cancel of an already CANCELLED order. -/
theorem order_status_transitions (o : Order) :
    (isOk o.markReadyToShip = true ↔ o.status = OrderStatusType.PLACED)
    ∧ (∀ o2, o.markReadyToShip = Except.ok o2 → o2.status = OrderStatusType.READY_TO_SHIP)
    ∧ (isOk o.assign = true ↔ o.status = OrderStatusType.READY_TO_SHIP)
    ∧ (∀ o2, o.assign = Except.ok o2 → o2.status = OrderStatusType.ASSIGNED)
    ∧ (isOk o.deliver = true ↔ o.status = OrderStatusType.ASSIGNED)
    ∧ (∀ o2, o.deliver = Except.ok o2 → o2.status = OrderStatusType.DELIVERED)
    ∧ (isOk o.cancel = false ↔ o.status = OrderStatusType.DELIVERED)
    ∧ (∀ o2, o.cancel = Except.ok o2 → o2.status = OrderStatusType.CANCELLED)
    ∧ (o.status = OrderStatusType.CANCELLED → isOk o.cancel = true) := by
  obtain ⟨i, sh, s, pa, da, ptw, dtw, w, n, c⟩ := o
  cases s <;>
    simp [Order.markReadyToShip, Order.assign, Order.deliver, Order.cancel,
      OrderStatusType.canBeAssigned, OrderStatusType.isDelivered, isOk] <;>
    intro o2 h <;> simp_all

/-- Witness for C1 at the concrete order `exOrder`. -/
theorem order_status_transitions_witness : isOk exOrder.markReadyToShip = true :=
  (order_status_transitions exOrder).1.mpr rfl

/-- C2: for every Assignment, `accept` and `reject` succeed iff the
current status is PENDING and on success set the status to ACCEPTED
(resp. REJECTED) with `respondedAt` set to the current time; `complete`
succeeds iff the status is ACCEPTED, setting COMPLETED; `cancel` fails
iff the status is COMPLETED and otherwise sets CANCELLED. -/
theorem assignment_status_transitions (a : Assignment) (now : Int) :
    (isOk (a.accept now) = true ↔ a.status = AssignmentStatusType.PENDING)
    ∧ (∀ a2, a.accept now = Except.ok a2 →
        a2.status = AssignmentStatusType.ACCEPTED ∧ a2.respondedAt = some now)
    ∧ (isOk (a.reject now) = true ↔ a.status = AssignmentStatusType.PENDING)
    ∧ (∀ a2, a.reject now = Except.ok a2 →
        a2.status = AssignmentStatusType.REJECTED ∧ a2.respondedAt = some now)
    ∧ (isOk a.complete = true ↔ a.status = AssignmentStatusType.ACCEPTED)
    ∧ (∀ a2, a.complete = Except.ok a2 → a2.status = AssignmentStatusType.COMPLETED)
    ∧ (isOk a.cancel = false ↔ a.status = AssignmentStatusType.COMPLETED)
    ∧ (∀ a2, a.cancel = Except.ok a2 → a2.status = AssignmentStatusType.CANCELLED) := by
  obtain ⟨i, oid, cid, s, off, resp⟩ := a
  cases s <;>
    simp [Assignment.accept, Assignment.reject, Assignment.complete, Assignment.cancel,
      AssignmentStatusType.isPending, AssignmentStatusType.isAccepted,
      AssignmentStatusType.isCompleted, isOk] <;>
    intro a2 h <;> simp_all

/-- Witness for C2 at the concrete assignment `exAssignment`. -/
theorem assignment_status_transitions_witness : isOk (exAssignment.accept 100) = true :=
  (assignment_status_transitions exAssignment 100).1.mpr rfl

/-- C10: `complete` and `cancel` modify only the status field of an
Assignment: id, orderId, courierId, offeredAt and respondedAt are
unchanged; in particular an assignment cancelled directly from PENDING
(whose `respondedAt` is still null) keeps `respondedAt` null. -/
theorem assignment_complete_cancel_frame (a a2 : Assignment)
    (h : a.complete = Except.ok a2 ∨ a.cancel = Except.ok a2) :
    a2.id = a.id ∧ a2.orderId = a.orderId ∧ a2.courierId = a.courierId
    ∧ a2.offeredAt = a.offeredAt ∧ a2.respondedAt = a.respondedAt
    ∧ (a.status = AssignmentStatusType.PENDING → a.respondedAt = none →
        a2.respondedAt = none) := by
  obtain ⟨i, oid, cid, s, off, resp⟩ := a
  rcases h with h | h <;> cases s <;>
    simp [Assignment.complete, Assignment.cancel, AssignmentStatusType.isAccepted,
      AssignmentStatusType.isCompleted] at h <;> subst h <;> simp

/-- Witness for C10: cancelling the concrete PENDING assignment
`exAssignment` keeps every non-status field, in particular a null
`respondedAt`. -/
theorem assignment_complete_cancel_frame_witness :
    ({ exAssignment with status := AssignmentStatusType.CANCELLED } : Assignment).respondedAt
      = none :=
  (assignment_complete_cancel_frame exAssignment
    { exAssignment with status := AssignmentStatusType.CANCELLED }
    (Or.inr rfl)).2.2.2.2.2 rfl rfl

/-! ## C8, C9: value-object validation -/

/-- Every element of `l.dropWhile p` satisfies `p` exactly when every
element of `l` does (the dropped prefix satisfies `p` by construction). -/
theorem dropWhile_all_iff {α : Type} (p : α → Bool) (l : List α) :
    (∀ c ∈ l.dropWhile p, p c = true) ↔ (∀ c ∈ l, p c = true) := by
  constructor
  · intro h c hc
    have hsplit : c ∈ l.takeWhile p ++ l.dropWhile p := by
      rw [List.takeWhile_append_dropWhile p l]; exact hc
    rcases List.mem_append.mp hsplit with h1 | h2
    · exact List.mem_takeWhile_imp h1
    · exact h c h2
  · intro h c hc
    have hsplit : c ∈ l.takeWhile p ++ l.dropWhile p := List.mem_append_right _ hc
    rw [List.takeWhile_append_dropWhile p l] at hsplit
    exact h c hsplit

/-- Helper: `jsTrim` returns the empty string exactly when every character of
the input is whitespace. -/
theorem jsTrim_eq_empty_iff (s : String) :
    jsTrim s = "" ↔ ∀ c ∈ s.data, c.isWhitespace = true := by
  have hmk : ∀ l : List Char, String.mk l = "" ↔ l = [] := by
    intro l
    constructor
    · intro h; simpa using congrArg String.data h
    · intro h; rw [h]
  unfold jsTrim
  rw [hmk, List.reverse_eq_nil_iff, List.dropWhile_eq_nil_iff]
  constructor
  · intro h c hc
    exact (dropWhile_all_iff Char.isWhitespace s.data).mp
      (fun d hd => h d (List.mem_reverse.mpr hd)) c hc
  · intro h c hc
    exact (dropWhile_all_iff Char.isWhitespace s.data).mpr h c (List.mem_reverse.mp hc)

/-- C8: constructing an `Address` from a string containing a
non-whitespace character succeeds and stores the trimmed value;
constructing from an empty or whitespace-only string fails;
constructing a `Weight` from a negative number fails while any
non-negative number is stored unchanged; constructing an `OrderStatus`
or `AssignmentStatus` succeeds exactly on the enumerated codes. -/
theorem value_object_validation :
    (∀ s : String,
      ((∃ c ∈ s.data, c.isWhitespace = false) →
        Address.create s = Except.ok { value := jsTrim s })
      ∧ ((∀ c ∈ s.data, c.isWhitespace = true) → isErr (Address.create s) = true))
    ∧ (∀ w : Int,
      (w < 0 → isErr (Weight.create w) = true)
      ∧ (0 ≤ w → Weight.create w = Except.ok { valueInKg := w }))
    ∧ (∀ s : String, isOk (OrderStatus.create s) = true ↔
        s = "PLACED" ∨ s = "READY_TO_SHIP" ∨ s = "ASSIGNED"
        ∨ s = "DELIVERED" ∨ s = "CANCELLED")
    ∧ (∀ s : String, isOk (AssignmentStatus.create s) = true ↔
        s = "PENDING" ∨ s = "ACCEPTED" ∨ s = "REJECTED"
        ∨ s = "COMPLETED" ∨ s = "CANCELLED") := by
  refine ⟨fun s => ⟨?_, ?_⟩, fun w => ⟨?_, ?_⟩, fun s => ?_, fun s => ?_⟩
  · rintro ⟨c, hc, hw⟩
    have htrim : jsTrim s ≠ "" := by
      intro h
      have := (jsTrim_eq_empty_iff s).mp h c hc
      rw [this] at hw
      exact Bool.noConfusion hw
    have hne : s ≠ "" := by
      intro h
      rw [h] at hc
      exact absurd hc (List.not_mem_nil c)
    simp [Address.create, hne, htrim]
  · intro h
    have htrim : jsTrim s = "" := (jsTrim_eq_empty_iff s).mpr h
    simp [Address.create, htrim, isErr, isOk]
  · intro h
    simp [Weight.create, h, isErr, isOk]
  · intro h
    simp [Weight.create, Int.not_lt.mpr h]
  · unfold OrderStatus.create
    split <;> rename_i h1
    · simp [isOk, h1]
    · split <;> rename_i h2
      · simp [isOk, h1, h2]
      · split <;> rename_i h3
        · simp [isOk, h1, h2, h3]
        · split <;> rename_i h4
          · simp [isOk, h1, h2, h3, h4]
          · split <;> rename_i h5 <;> simp [isOk, h1, h2, h3, h4, h5]
  · unfold AssignmentStatus.create
    split <;> rename_i h1
    · simp [isOk, h1]
    · split <;> rename_i h2
      · simp [isOk, h1, h2]
      · split <;> rename_i h3
        · simp [isOk, h1, h2, h3]
        · split <;> rename_i h4
          · simp [isOk, h1, h2, h3, h4]
          · split <;> rename_i h5 <;> simp [isOk, h1, h2, h3, h4, h5]

/-- Witness for C8: the address " A " trims to "A", a negative weight
fails, and an unrecognized status code fails. -/
theorem value_object_validation_witness :
    Address.create (" A ") = Except.ok { value := jsTrim (" A ") }
    ∧ isErr (Weight.create (-1)) = true
    ∧ isErr (Address.create ("  ")) = true :=
  ⟨(value_object_validation.1 (" A ")).1 ⟨'A', by decide, by decide⟩,
   (value_object_validation.2.1 (-1)).1 (by decide),
   (value_object_validation.1 ("  ")).2 (by decide)⟩

/-- C9: `TimeWindow` construction fails exactly when both bounds are
present and the start is after the end; every successfully constructed
window stores the given bounds and satisfies start ≤ end whenever both
are present (and, the structure being immutable, keeps them for its
lifetime). -/
theorem timeWindow_start_le_end (startAt endAt : Option Int) :
    (isErr (TimeWindow.create startAt endAt) = true ↔
      ∃ s e, startAt = some s ∧ endAt = some e ∧ e < s)
    ∧ (∀ w, TimeWindow.create startAt endAt = Except.ok w →
        w.startAt = startAt ∧ w.endAt = endAt
        ∧ ∀ s e, w.startAt = some s → w.endAt = some e → s ≤ e) := by
  cases startAt with
  | none =>
    simp [TimeWindow.create, isErr, isOk]
  | some s =>
    cases endAt with
    | none =>
      simp [TimeWindow.create, isErr, isOk]
    | some e =>
      by_cases hlt : e < s
      · constructor
        · simp [TimeWindow.create, hlt, isErr, isOk]
        · intro w h
          simp [TimeWindow.create, hlt] at h
      · constructor
        · simp [TimeWindow.create, hlt, isErr, isOk]
        · intro w h
          simp [TimeWindow.create, hlt] at h
          rw [← h]
          refine ⟨rfl, rfl, ?_⟩
          intro a b ha hb
          simp at ha hb
          rw [← ha, ← hb]
          exact Int.not_lt.mp hlt

/-- Witness for C9 at the concrete bounds 3 and 5. -/
theorem timeWindow_start_le_end_witness :
    TimeWindow.create (some 3) (some 5) = Except.ok { startAt := some 3, endAt := some 5 } →
      (3 : Int) ≤ 5 :=
  fun h => ((timeWindow_start_le_end (some 3) (some 5)).2
    { startAt := some 3, endAt := some 5 } h).2.2 3 5 rfl rfl

/-! ## C4, C5: the active-assignment query -/

/-- State of `exOrder` after `markReadyToShip`. -/
def exReadyOrder : Order :=
  { exOrder with status := OrderStatusType.READY_TO_SHIP }

/-- A state holding the READY_TO_SHIP order "o1" and one PENDING
assignment "a1" for it. -/
def exState : RepoState :=
  { orders := [exReadyOrder], assignments := [exAssignment], events := [] }

/-- A state holding the READY_TO_SHIP order "o1" whose only stored
assignment is the ACCEPTED (hence active) assignment "a2". -/
def exAcceptedOnlyState : RepoState :=
  { orders := [exReadyOrder], assignments := [exAcceptedAssignment], events := [] }

/-- C4 counterexample: in a state whose only stored assignment for order
"o1" is ACCEPTED, the first stored assignment for the order exists (and
is active), yet `findActiveByOrderId` returns none — so the query does
not behave as a status filter that is always true returning the first
assignment regardless of status. -/
theorem findActiveByOrderId_not_status_blind :
    exAcceptedOnlyState.findAssignmentByOrderId ("o1") = some exAcceptedAssignment
    ∧ exAcceptedAssignment.isActive = true
    ∧ exAcceptedOnlyState.findActiveByOrderId ("o1") = none := by
  refine ⟨rfl, rfl, rfl⟩

/-- Helper: when some element of a list satisfies the search predicate,
`List.find?` returns the first element that does: a witness of the
result, together with a split of the list at that position whose prefix
contains no satisfying element. -/
theorem find?_first {α : Type} (p : α → Bool) (l : List α) (x : α)
    (hx : x ∈ l) (hpx : p x = true) :
    ∃ b l1 l2, l.find? p = some b ∧ l = l1 ++ b :: l2 ∧ p b = true
      ∧ ∀ c ∈ l1, p c = false := by
  induction l with
  | nil => simp at hx
  | cons a t ih =>
    cases hpa : p a with
    | true =>
      exact ⟨a, [], t, by simp [List.find?, hpa], by simp, hpa, by simp⟩
    | false =>
      have hxt : x ∈ t := by
        rcases List.mem_cons.mp hx with h | h
        · rw [← h, hpx] at hpa
          exact Bool.noConfusion hpa
        · exact h
      obtain ⟨b, l1, l2, hfind, hsplit, hpb, hl1⟩ := ih hxt
      refine ⟨b, a :: l1, l2, ?_, ?_, hpb, ?_⟩
      · simp [List.find?, hpa, hfind]
      · simp [hsplit]
      · intro c hc
        rcases List.mem_cons.mp hc with h | h
        · rw [h]
          exact hpa
        · exact hl1 c h

/-- C4 (amended): `findActiveByOrderId` filters by the single status
value PENDING — the JavaScript or-expression `"PENDING" || "ACCEPTED"`
evaluates to its first operand — so any assignment it returns is a
stored PENDING assignment for the order; whenever a PENDING assignment
for the order is stored the query returns the first such assignment
(the returned row splits the table with no earlier PENDING row for the
order); and when no PENDING assignment is stored it returns none even
if active (ACCEPTED) assignments are stored. -/
theorem findActiveByOrderId_pending_filter (st : RepoState) (orderId : String) :
    (∀ a, st.findActiveByOrderId orderId = some a →
      a ∈ st.assignments ∧ a.orderId = orderId ∧ a.status = AssignmentStatusType.PENDING)
    ∧ (∀ a, a ∈ st.assignments → a.orderId = orderId →
        a.status = AssignmentStatusType.PENDING →
        ∃ b l1 l2, st.findActiveByOrderId orderId = some b
          ∧ st.assignments = l1 ++ b :: l2
          ∧ b.orderId = orderId ∧ b.status = AssignmentStatusType.PENDING
          ∧ ∀ c ∈ l1, ¬ (c.orderId = orderId ∧ c.status = AssignmentStatusType.PENDING))
    ∧ ((∀ a ∈ st.assignments, a.status ≠ AssignmentStatusType.PENDING) →
      st.findActiveByOrderId orderId = none) := by
  refine ⟨?_, ?_, ?_⟩
  · intro a h
    have hmem : a ∈ st.assignments := List.mem_of_find?_eq_some h
    have hp := List.find?_some h
    rw [Bool.and_eq_true] at hp
    exact ⟨hmem, beq_iff_eq.mp hp.1, beq_iff_eq.mp hp.2⟩
  · intro a hmem ho hs
    have hpa : (a.orderId == orderId && a.status == AssignmentStatusType.PENDING) = true := by
      rw [Bool.and_eq_true, beq_iff_eq, beq_iff_eq]
      exact ⟨ho, hs⟩
    obtain ⟨b, l1, l2, hfind, hsplit, hpb, hl1⟩ :=
      find?_first (fun z => z.orderId == orderId && z.status == AssignmentStatusType.PENDING)
        st.assignments a hmem hpa
    rw [Bool.and_eq_true, beq_iff_eq, beq_iff_eq] at hpb
    refine ⟨b, l1, l2, hfind, hsplit, hpb.1, hpb.2, ?_⟩
    intro c hc hcontra
    have hfalse := hl1 c hc
    have htrue : (c.orderId == orderId && c.status == AssignmentStatusType.PENDING) = true := by
      rw [Bool.and_eq_true, beq_iff_eq, beq_iff_eq]
      exact hcontra
    rw [htrue] at hfalse
    exact Bool.noConfusion hfalse
  · intro h
    apply List.find?_eq_none.mpr
    intro a hmem hcontra
    rw [Bool.and_eq_true] at hcontra
    exact h a hmem (beq_iff_eq.mp hcontra.2)

/-- Witness for the amended C4 statement: in `exState` the PENDING
assignment "a1" for order "o1" is stored, so the query returns the
first stored PENDING assignment for the order. -/
theorem findActiveByOrderId_pending_filter_witness :
    ∃ b l1 l2, exState.findActiveByOrderId ("o1") = some b
      ∧ exState.assignments = l1 ++ b :: l2
      ∧ b.orderId = "o1" ∧ b.status = AssignmentStatusType.PENDING
      ∧ ∀ c ∈ l1, ¬ (c.orderId = "o1" ∧ c.status = AssignmentStatusType.PENDING) :=
  (findActiveByOrderId_pending_filter exState ("o1")).2.1 exAssignment (by decide) rfl rfl

/-- C5 at the failing input: order "o1" is READY_TO_SHIP and the
ACCEPTED assignment "a2" stored for it is active, yet `OfferAssignment`
succeeds and persists a second assignment "a3" (status PENDING) instead
of failing with a conflict, because the active-assignment query only
matches PENDING rows. -/
theorem offerAssignment_accepted_not_blocked :
    exAcceptedAssignment.isActive = true
    ∧ exAcceptedAssignment.orderId = "o1"
    ∧ OfferAssignmentUseCase.execute exAcceptedOnlyState ("o1") ("c2") ("a3") 200
      = Except.ok
        ({ exAcceptedOnlyState with
            assignments := exAcceptedOnlyState.assignments ++
              [{ id := "a3", orderId := "o1", courierId := "c2",
                 status := AssignmentStatusType.PENDING,
                 offeredAt := 200, respondedAt := none }] },
         { id := "a3", orderId := "o1", courierId := "c2",
           status := AssignmentStatusType.PENDING,
           offeredAt := 200, respondedAt := none }) := by
  refine ⟨rfl, rfl, rfl⟩

/-! ## C3, C6, C7: use-case orchestration -/

/-- Replacing the row carrying the same id as a previously found row
keeps the lookup pointing at the (now replaced) row. -/
theorem find_map_replace {α : Type} (key : α → String) (l : List α) (k : String) (x y : α)
    (hfound : l.find? (fun z => key z == k) = some x) (hk : key y = key x) :
    (l.map (fun z => if key z == key y then y else z)).find? (fun z => key z == k)
      = some y := by
  induction l with
  | nil => simp at hfound
  | cons a t ih =>
    cases hpa : (key a == k) with
    | true =>
      simp only [List.find?, hpa] at hfound
      have hax : a = x := Option.some.inj hfound
      have h1 : (key a == key y) = true :=
        beq_iff_eq.mpr ((hk.trans (congrArg key hax.symm)).symm)
      have h2 : (key y == k) = true := by
        rw [beq_iff_eq, hk, ← congrArg key hax]
        exact beq_iff_eq.mp hpa
      simp [List.find?, h1, h2]
    | false =>
      simp only [List.find?, hpa] at hfound
      have hxk : (key x == k) = true := by
        have h0 := List.find?_some hfound
        simpa using h0
      have h1 : (key a == key y) = false := by
        apply beq_eq_false_iff_ne.mpr
        intro hcontra
        have hak : (key a == k) = true := by
          rw [beq_iff_eq, hcontra, hk]
          exact beq_iff_eq.mp hxk
        rw [hpa] at hak
        exact Bool.noConfusion hak
      simp only [List.map_cons, List.find?, h1, Bool.false_eq_true, if_false, hpa]
      exact ih hfound

/-- C6: accepting an assignment that is already ACCEPTED fails with the
invalid-state error of `Assignment.accept`; the use case throws before
any repository write, so the error result carries no updated state and
no assignment update, order update or delivery event is persisted. -/
theorem acceptAssignment_invalid_state_no_writes (st : RepoState)
    (assignmentId freshEventId : String) (now : Int) (a : Assignment)
    (hid : assignmentId ≠ "")
    (ha : st.findAssignmentById assignmentId = some a)
    (hacc : a.status = AssignmentStatusType.ACCEPTED) :
    AcceptAssignmentUseCase.execute st assignmentId now freshEventId
      = Except.error ("PENDING状態の割り当てのみ受諾可能です") := by
  have hcreate : AssignmentId.create assignmentId = Except.ok assignmentId := by
    simp [AssignmentId.create, hid]
  have haccept : a.accept now = Except.error ("PENDING状態の割り当てのみ受諾可能です") := by
    simp [Assignment.accept, hacc, AssignmentStatusType.isPending]
  simp only [AcceptAssignmentUseCase.execute, hcreate, ha, haccept]

/-- Witness for C6: accepting the already ACCEPTED assignment "a2". -/
theorem acceptAssignment_invalid_state_no_writes_witness :
    AcceptAssignmentUseCase.execute exAcceptedOnlyState ("a2") 100 ("e1")
      = Except.error ("PENDING状態の割り当てのみ受諾可能です") :=
  acceptAssignment_invalid_state_no_writes exAcceptedOnlyState ("a2") ("e1") 100
    exAcceptedAssignment (by decide) rfl rfl

/-- C3: accepting an existing PENDING assignment whose order exists and
is READY_TO_SHIP updates the assignment to ACCEPTED with `respondedAt`
set, updates the order to ASSIGNED, appends exactly one ASSIGNED
delivery event carrying the assignment id and courier id in its
payload, and returns the updated assignment. -/
theorem acceptAssignment_success_path (st : RepoState)
    (assignmentId freshEventId : String) (now : Int) (a : Assignment) (o : Order)
    (hid : assignmentId ≠ "")
    (hev : freshEventId ≠ "")
    (ha : st.findAssignmentById assignmentId = some a)
    (hpend : a.status = AssignmentStatusType.PENDING)
    (ho : st.findOrderById a.orderId = some o)
    (hready : o.status = OrderStatusType.READY_TO_SHIP) :
    ∃ st3,
      AcceptAssignmentUseCase.execute st assignmentId now freshEventId
        = Except.ok (st3,
            { a with status := AssignmentStatusType.ACCEPTED, respondedAt := some now })
      ∧ st3.findAssignmentById assignmentId
          = some { a with status := AssignmentStatusType.ACCEPTED, respondedAt := some now }
      ∧ st3.findOrderById a.orderId = some { o with status := OrderStatusType.ASSIGNED }
      ∧ st3.events = st.events ++
          [{ id := freshEventId, orderId := a.orderId, courierId := some a.courierId,
             type := EventTypeValue.ASSIGNED,
             payload := some [("assignmentId", assignmentId), ("courierId", a.courierId)],
             occurredAt := now }] := by
  have hcreate : AssignmentId.create assignmentId = Except.ok assignmentId := by
    simp [AssignmentId.create, hid]
  have hevc : DeliveryEventId.create freshEventId = Except.ok freshEventId := by
    simp [DeliveryEventId.create, hev]
  have haccept : a.accept now
      = Except.ok { a with status := AssignmentStatusType.ACCEPTED, respondedAt := some now } := by
    simp [Assignment.accept, hpend, AssignmentStatusType.isPending]
  have hassign : o.assign = Except.ok { o with status := OrderStatusType.ASSIGNED } := by
    simp [Order.assign, hready, OrderStatusType.canBeAssigned]
  have ho2 : st.orders.find? (fun z => z.id == a.orderId) = some o := ho
  refine ⟨((st.updateAssignment
      { a with status := AssignmentStatusType.ACCEPTED, respondedAt := some now }).updateOrder
      { o with status := OrderStatusType.ASSIGNED }).saveEvent
      { id := freshEventId, orderId := a.orderId, courierId := some a.courierId,
        type := EventTypeValue.ASSIGNED,
        payload := some [("assignmentId", assignmentId), ("courierId", a.courierId)],
        occurredAt := now }, ?_, ?_, ?_, ?_⟩
  · simp only [AcceptAssignmentUseCase.execute, hcreate, ha, haccept,
      RepoState.updateAssignment, RepoState.findOrderById, ho2, hassign, hevc]
    all_goals rfl
  · exact find_map_replace Assignment.id st.assignments assignmentId a
      { a with status := AssignmentStatusType.ACCEPTED, respondedAt := some now } ha rfl
  · exact find_map_replace Order.id st.orders a.orderId o
      { o with status := OrderStatusType.ASSIGNED } ho rfl
  · rfl

/-- Witness for C3: accepting the PENDING assignment "a1" of the
READY_TO_SHIP order "o1" in the concrete state `exState`. -/
theorem acceptAssignment_success_path_witness :
    ∃ st3,
      AcceptAssignmentUseCase.execute exState ("a1") 100 ("e1")
        = Except.ok (st3,
            { exAssignment with
              status := AssignmentStatusType.ACCEPTED,
              respondedAt := some (100 : Int) })
      ∧ st3.findAssignmentById ("a1")
          = some { exAssignment with
                   status := AssignmentStatusType.ACCEPTED,
                   respondedAt := some (100 : Int) }
      ∧ st3.findOrderById exAssignment.orderId
          = some { exReadyOrder with status := OrderStatusType.ASSIGNED }
      ∧ st3.events = exState.events ++
          [{ id := "e1", orderId := exAssignment.orderId,
             courierId := some exAssignment.courierId,
             type := EventTypeValue.ASSIGNED,
             payload := some [("assignmentId", "a1"),
                              ("courierId", exAssignment.courierId)],
             occurredAt := 100 }] :=
  acceptAssignment_success_path exState ("a1") ("e1") 100 exAssignment exReadyOrder
    (by decide) (by decide) rfl rfl rfl rfl

/-- C7: placing an order with valid inputs persists a new Order carrying
the fresh identifier and status PLACED, then persists exactly one
ORDER_PLACED delivery event referencing the new order id and carrying
the shipper id and both addresses in its payload, and returns the saved
order. -/
theorem placeOrder_success_path (st : RepoState)
    (shipperId pickupAddress dropoffAddress : String)
    (pickupStartAt pickupEndAt dropStartAt dropEndAt : Option Int)
    (totalWeightKg : Option Int) (notes : Option String)
    (freshOrderId freshEventId : String) (now : Int)
    (pa da : Address) (ptw dtw : TimeWindow) (w : Weight)
    (hoid : freshOrderId ≠ "")
    (hship : shipperId ≠ "")
    (hpa : Address.create pickupAddress = Except.ok pa)
    (hda : Address.create dropoffAddress = Except.ok da)
    (hptw : TimeWindow.create pickupStartAt pickupEndAt = Except.ok ptw)
    (hdtw : TimeWindow.create dropStartAt dropEndAt = Except.ok dtw)
    (hw : Weight.create (totalWeightKg.getD 0) = Except.ok w)
    (hev : freshEventId ≠ "") :
    PlaceOrderUseCase.execute st shipperId pickupAddress dropoffAddress
        pickupStartAt pickupEndAt dropStartAt dropEndAt totalWeightKg notes
        freshOrderId freshEventId now
      = Except.ok
          ((st.saveOrder
              { id := freshOrderId, shipperId := shipperId,
                status := OrderStatusType.PLACED,
                pickupAddress := pa, dropoffAddress := da,
                pickupTimeWindow := ptw, dropoffTimeWindow := dtw,
                totalWeight := w, notes := notes, createdAt := now }).saveEvent
              { id := freshEventId, orderId := freshOrderId, courierId := none,
                type := EventTypeValue.ORDER_PLACED,
                payload := some [("shipperId", shipperId),
                                 ("pickupAddress", pickupAddress),
                                 ("dropoffAddress", dropoffAddress)],
                occurredAt := now },
           { id := freshOrderId, shipperId := shipperId,
             status := OrderStatusType.PLACED,
             pickupAddress := pa, dropoffAddress := da,
             pickupTimeWindow := ptw, dropoffTimeWindow := dtw,
             totalWeight := w, notes := notes, createdAt := now })
    ∧ (st.saveOrder
        { id := freshOrderId, shipperId := shipperId,
          status := OrderStatusType.PLACED,
          pickupAddress := pa, dropoffAddress := da,
          pickupTimeWindow := ptw, dropoffTimeWindow := dtw,
          totalWeight := w, notes := notes, createdAt := now }).orders
      = st.orders ++
        [{ id := freshOrderId, shipperId := shipperId,
           status := OrderStatusType.PLACED,
           pickupAddress := pa, dropoffAddress := da,
           pickupTimeWindow := ptw, dropoffTimeWindow := dtw,
           totalWeight := w, notes := notes, createdAt := now }] := by
  have hoidc : OrderId.create freshOrderId = Except.ok freshOrderId := by
    simp [OrderId.create, hoid]
  have hshipc : AccountId.create shipperId = Except.ok shipperId := by
    simp [AccountId.create, hship]
  have hevc : DeliveryEventId.create freshEventId = Except.ok freshEventId := by
    simp [DeliveryEventId.create, hev]
  have hstatus : OrderStatus.create ("PLACED") = Except.ok OrderStatusType.PLACED := rfl
  refine ⟨?_, rfl⟩
  simp only [PlaceOrderUseCase.execute, hoidc, hshipc, hstatus, hpa, hda, hptw, hdtw,
    hw, hevc]

/-- Witness for C7: placing an order in the empty state with shipper
"s1", addresses "A" and "B" and weight 5 succeeds. -/
theorem placeOrder_success_path_witness :
    isOk (PlaceOrderUseCase.execute { orders := [], assignments := [], events := [] }
      ("s1") ("A") ("B") none none none none (some 5) none ("o9") ("e9") 0) = true := by
  rw [(placeOrder_success_path { orders := [], assignments := [], events := [] }
    ("s1") ("A") ("B") none none none none (some 5) none ("o9") ("e9") 0
    { value := jsTrim ("A") } { value := jsTrim ("B") }
    { startAt := none, endAt := none } { startAt := none, endAt := none }
    { valueInKg := 5 }
    (by decide) (by decide) rfl rfl rfl rfl rfl (by decide)).1]
  rfl
